import Mathlib

/-!
Verification of the `executor-j5s` Jenkins executor adapter.

The repository contains two versions of the same module:
* `src/index.js` (the "old" version): the `job.destroy` call after a
  successful `build.stop` is commented out and `_stop` resolves with the
  literal `10`; the build parameters omit `SD_CONTAINER`; the template is
  read from `./config/test-job.xml`; `job.get` receives the bare job-name
  string as its parameter.
* `src/unnamed/part_000` (the "new" version): `job.destroy` is active and
  `_stop` resolves with its result; the build parameters include
  `SD_CONTAINER`; the template is read from `./config/job.xml`; `job.get`
  receives `{ name: jobName }`.

Each public operation is embedded as a pure function from its inputs and
an oracle describing the outcomes of the remote calls (`resp k` is the
outcome of the `k`-th remote call issued during the invocation, and
`fsRead` gives the outcome of reading a file) to the ordered list of
remote operation descriptors actually issued, paired with the final
resolved (`Except.ok`) or rejected (`Except.error`) outcome of the
returned promise.
-/

/-- JavaScript values, as far as the adapter inspects or constructs them.
`null` also stands for `undefined` (the adapter only ever distinguishes
them through truthiness, where they agree). -/
inductive JsVal where
  | null
  | bool (b : Bool)
  | num (n : Nat)
  | str (s : String)
  | obj (fields : List (String × JsVal))
  deriving Repr

mutual

/-- Structural equality test on `JsVal`. -/
def JsVal.beq : JsVal → JsVal → Bool
  | .null, .null => true
  | .bool a, .bool b => a == b
  | .num a, .num b => a == b
  | .str a, .str b => a == b
  | .obj a, .obj b => JsVal.beqFields a b
  | _, _ => false

/-- Structural equality test on object field lists. -/
def JsVal.beqFields : List (String × JsVal) → List (String × JsVal) → Bool
  | [], [] => true
  | (k, v) :: xs, (k', v') :: ys => k == k' && JsVal.beq v v' && JsVal.beqFields xs ys
  | _, _ => false

end

theorem JsVal.beq_iff_eq : ∀ a b : JsVal, JsVal.beq a b = true ↔ a = b := by
  intro a
  refine @JsVal.rec (fun x => ∀ b, JsVal.beq x b = true ↔ x = b)
    (fun xs => ∀ ys, JsVal.beqFields xs ys = true ↔ xs = ys)
    (fun p => ∀ q : String × JsVal,
      (p.1 == q.1 && JsVal.beq p.2 q.2) = true ↔ p = q)
    ?_ ?_ ?_ ?_ ?_ ?_ ?_ ?_ a
  · intro b; cases b <;> simp [JsVal.beq]
  · intro x b; cases b <;> simp [JsVal.beq]
  · intro x b; cases b <;> simp [JsVal.beq]
  · intro x b; cases b <;> simp [JsVal.beq]
  · intro fs ih b; cases b <;> simp [JsVal.beq, ih]
  · intro ys; cases ys <;> simp [JsVal.beqFields]
  · intro p ps ihp ihps ys
    cases ys with
    | nil => obtain ⟨k, v⟩ := p; simp [JsVal.beqFields]
    | cons q qs =>
      obtain ⟨k, v⟩ := p
      obtain ⟨k', v'⟩ := q
      have h := ihp (k', v')
      simp at h
      simp [JsVal.beqFields, ihps, h]
      tauto
  · intro k v ih q
    obtain ⟨k', v'⟩ := q
    simp [ih]

instance : DecidableEq JsVal := fun a b =>
  decidable_of_iff (JsVal.beq a b = true) (JsVal.beq_iff_eq a b)

/-- A remote operation descriptor `{ module, action, params }`, the unit
of work the circuit breaker wraps (the argument of `breaker.runCommand`). -/
structure Descriptor where
  module : String
  action : String
  params : List JsVal
  deriving DecidableEq, Repr

/-- JavaScript truthiness, as tested by `if (exists)` and by
`data && data.lastBuild && data.lastBuild.number`. -/
def truthy : JsVal → Bool
  | .null => false
  | .bool b => b
  | .num n => n != 0
  | .str s => s != ""
  | .obj _ => true

/-- First-match field lookup in an object field list. -/
def lookupField : List (String × JsVal) → String → JsVal
  | [], _ => .null
  | (k', v) :: rest, k => if k' = k then v else lookupField rest k

/-- JavaScript member access `v.k`: field lookup on objects, `undefined`
(modelled as `null`) on everything else. -/
def getField : JsVal → String → JsVal
  | .obj fields, k => lookupField fields k
  | _, _ => .null

/-- JavaScript string coercion, as performed by the template literal in
`_jobName` and by `String(config.buildId)`. -/
def jsString : JsVal → String
  | .null => "null"
  | .bool b => if b then "true" else "false"
  | .num n => toString n
  | .str s => s
  | .obj _ => "[object Object]"

/-- `new Error(msg)`: an error value carrying a `message` property. -/
def mkError (msg : String) : JsVal :=
  .obj [("message", .str msg)]

/-- `_jobName(buildId)`, i.e. the template literal `SD-${buildId}`
(both versions have the identical body). -/
def jobNameOf (buildId : JsVal) : String :=
  "SD-" ++ jsString buildId

/-- The `{ name: jobName }` parameter object. -/
def nameObj (jn : String) : JsVal :=
  .obj [("name", .str jn)]

/-- Descriptor of the `job.exists` call (both versions). -/
def existsDesc (jn : String) : Descriptor :=
  ⟨"job", "exists", [nameObj jn]⟩

/-- Descriptor of the `job.config` call (both versions). -/
def configDesc (jn xml : String) : Descriptor :=
  ⟨"job", "config", [.obj [("name", .str jn), ("xml", .str xml)]]⟩

/-- Descriptor of the `job.create` call (both versions). -/
def createDesc (jn xml : String) : Descriptor :=
  ⟨"job", "create", [.obj [("name", .str jn), ("xml", .str xml)]]⟩

/-- Descriptor of the `job.build` call (both versions, the versions
differing only in the parameters object passed in). -/
def buildDesc (jn : String) (parameters : JsVal) : Descriptor :=
  ⟨"job", "build", [.obj [("name", .str jn), ("parameters", parameters)]]⟩

/-- Descriptor of the `job.get` call of the new version
(`params: [{ name: jobName }]`). -/
def getDescNew (jn : String) : Descriptor :=
  ⟨"job", "get", [nameObj jn]⟩

/-- Descriptor of the `job.get` call of the old version
(`params: [jobName]`, the bare string). -/
def getDescOld (jn : String) : Descriptor :=
  ⟨"job", "get", [.str jn]⟩

/-- Descriptor of the `build.stop` call (both versions). -/
def stopDesc (jn : String) (number : JsVal) : Descriptor :=
  ⟨"build", "stop", [.obj [("name", .str jn), ("number", number)]]⟩

/-- Descriptor of the `job.destroy` call (issued by the new version only). -/
def destroyDesc (jn : String) : Descriptor :=
  ⟨"job", "destroy", [nameObj jn]⟩

/-- The ecosystem settings the constructor stores (`options.ecosystem`). -/
structure Ecosystem where
  api : JsVal
  store : JsVal

/-- The fields of the `config` argument that `_start` reads. -/
structure StartConfig where
  buildId : JsVal
  container : JsVal
  token : JsVal

/-- Template path of the old version: `./config/test-job.xml`. -/
def templatePathOld : String := "./config/test-job.xml"

/-- Template path of the new version: `./config/job.xml`. -/
def templatePathNew : String := "./config/job.xml"

/-- The build parameters object of the new version:
`{ SD_BUILDID: String(config.buildId), SD_TOKEN: config.token,
   SD_CONTAINER: config.container, SD_API: this.ecosystem.api,
   SD_STORE: this.ecosystem.store }`. -/
def buildParamsNew (eco : Ecosystem) (config : StartConfig) : JsVal :=
  .obj [("SD_BUILDID", .str (jsString config.buildId)),
        ("SD_TOKEN", config.token),
        ("SD_CONTAINER", config.container),
        ("SD_API", eco.api),
        ("SD_STORE", eco.store)]

/-- The build parameters object of the old version:
`{ SD_BUILDID: String(config.buildId), SD_TOKEN: config.token,
   SD_API: this.ecosystem.api, SD_STORE: this.ecosystem.store }`
(no `SD_CONTAINER`). -/
def buildParamsOld (eco : Ecosystem) (config : StartConfig) : JsVal :=
  .obj [("SD_BUILDID", .str (jsString config.buildId)),
        ("SD_TOKEN", config.token),
        ("SD_API", eco.api),
        ("SD_STORE", eco.store)]

/-- `_jenkinsJobCreateOrUpdate(jobName, xml)` (identical logic in both
versions): run `job.exists`; on a truthy answer run `job.config`,
otherwise run `job.create`.  `resp k` is the outcome of the `k`-th remote
call of the enclosing invocation; the result pairs the issued descriptors
with the outcome. -/
def jenkinsJobCreateOrUpdate (resp : Nat → Except JsVal JsVal)
    (jn xml : String) : List Descriptor × Except JsVal JsVal :=
  match resp 0 with
  | .error e => ([existsDesc jn], .error e)
  | .ok ex =>
    if truthy ex then
      match resp 1 with
      | .error e => ([existsDesc jn, configDesc jn xml], .error e)
      | .ok w => ([existsDesc jn, configDesc jn xml], .ok w)
    else
      match resp 1 with
      | .error e => ([existsDesc jn, createDesc jn xml], .error e)
      | .ok w => ([existsDesc jn, createDesc jn xml], .ok w)

/-- `_start(config)` of the new version (`src/unnamed/part_000`): read
`./config/job.xml`, create-or-update the job, then trigger `job.build`
with the parameter mapping that includes `SD_CONTAINER`. -/
def startNew (fsRead : String → Except JsVal String)
    (resp : Nat → Except JsVal JsVal) (eco : Ecosystem)
    (config : StartConfig) : List Descriptor × Except JsVal JsVal :=
  let jn := jobNameOf config.buildId
  match fsRead templatePathNew with
  | .error e => ([], .error e)
  | .ok xml =>
    match jenkinsJobCreateOrUpdate resp jn xml with
    | (t, .error e) => (t, .error e)
    | (t, .ok _) =>
      match resp 2 with
      | .error e => (t ++ [buildDesc jn (buildParamsNew eco config)], .error e)
      | .ok v => (t ++ [buildDesc jn (buildParamsNew eco config)], .ok v)

/-- `_start(config)` of the old version (`src/index.js`): read
`./config/test-job.xml`, create-or-update the job, then trigger
`job.build` with the parameter mapping without `SD_CONTAINER`. -/
def startOld (fsRead : String → Except JsVal String)
    (resp : Nat → Except JsVal JsVal) (eco : Ecosystem)
    (config : StartConfig) : List Descriptor × Except JsVal JsVal :=
  let jn := jobNameOf config.buildId
  match fsRead templatePathOld with
  | .error e => ([], .error e)
  | .ok xml =>
    match jenkinsJobCreateOrUpdate resp jn xml with
    | (t, .error e) => (t, .error e)
    | (t, .ok _) =>
      match resp 2 with
      | .error e => (t ++ [buildDesc jn (buildParamsOld eco config)], .error e)
      | .ok v => (t ++ [buildDesc jn (buildParamsOld eco config)], .ok v)

/-- The guard `data && data.lastBuild && data.lastBuild.number` of `_stop`
(identical in both versions). -/
def hasLastBuild (data : JsVal) : Bool :=
  truthy data && truthy (getField data "lastBuild")
    && truthy (getField (getField data "lastBuild") "number")

/-- `_stop(config)` of the new version (`src/unnamed/part_000`): run
`job.get` with `{ name: jobName }`; if the answer has no truthy
`lastBuild.number`, reject with the error "No build has been started
yet, try later"; otherwise run `build.stop` with that number and then
`job.destroy`, resolving with the destroy outcome. -/
def stopNew (resp : Nat → Except JsVal JsVal) (buildId : JsVal) :
    List Descriptor × Except JsVal JsVal :=
  let jn := jobNameOf buildId
  match resp 0 with
  | .error e => ([getDescNew jn], .error e)
  | .ok data =>
    if hasLastBuild data then
      let number := getField (getField data "lastBuild") "number"
      match resp 1 with
      | .error e => ([getDescNew jn, stopDesc jn number], .error e)
      | .ok _ =>
        match resp 2 with
        | .error e => ([getDescNew jn, stopDesc jn number, destroyDesc jn], .error e)
        | .ok v => ([getDescNew jn, stopDesc jn number, destroyDesc jn], .ok v)
    else
      ([getDescNew jn], .error (mkError "No build has been started yet, try later"))

/-- `_stop(config)` of the old version (`src/index.js`): run `job.get`
with the bare job name; the same `lastBuild.number` guard; then
`build.stop`; the `job.destroy` call is commented out and the final
`.then` resolves with the literal `10`. -/
def stopOld (resp : Nat → Except JsVal JsVal) (buildId : JsVal) :
    List Descriptor × Except JsVal JsVal :=
  let jn := jobNameOf buildId
  match resp 0 with
  | .error e => ([getDescOld jn], .error e)
  | .ok data =>
    if hasLastBuild data then
      let number := getField (getField data "lastBuild") "number"
      match resp 1 with
      | .error e => ([getDescOld jn, stopDesc jn number], .error e)
      | .ok _ => ([getDescOld jn, stopDesc jn number], .ok (.num 10))
    else
      ([getDescOld jn], .error (mkError "No build has been started yet, try later"))

/-- On objects, member access that yields anything but `null` means the
value was an object, hence truthy. -/
theorem truthy_of_getField_ne_null (v : JsVal) (k : String)
    (h : getField v k ≠ JsVal.null) : truthy v = true := by
  cases v <;> simp [getField, truthy] at h ⊢

/-- A numeric, non-zero `lastBuild.number` satisfies the `_stop` guard. -/
theorem hasLastBuild_of_number (data : JsVal) (n : Nat)
    (hn : getField (getField data "lastBuild") "number" = JsVal.num n)
    (hpos : n ≠ 0) : hasLastBuild data = true := by
  have hlb : getField data "lastBuild" ≠ JsVal.null := by
    intro h
    rw [h] at hn
    simp [getField] at hn
  have h1 : truthy data = true := truthy_of_getField_ne_null data "lastBuild" hlb
  have h2 : truthy (getField data "lastBuild") = true := by
    apply truthy_of_getField_ne_null
    rw [hn]
    simp
  have h3 : truthy (getField (getField data "lastBuild") "number") = true := by
    rw [hn]
    simp [truthy, hpos]
  simp [hasLastBuild, h1, h2, h3]

/-- Claim C1: when `job.get` answers with a recorded (numeric, non-zero)
last-build number and the following remote calls succeed, `stopBuild` of
the current version (`src/unnamed/part_000`) issues exactly three remote
calls in order — `job.get` with the computed job name, `build.stop` with
exactly that last-build number, `job.destroy` for the same job name — and
resolves (with the outcome of the destroy call, which carries no
meaningful value). -/
theorem stop_success_three_calls (resp : Nat → Except JsVal JsVal)
    (b data : JsVal) (n : Nat) (w v : JsVal)
    (hget : resp 0 = .ok data)
    (hn : getField (getField data "lastBuild") "number" = JsVal.num n)
    (hpos : n ≠ 0)
    (hstop : resp 1 = .ok w) (hdestroy : resp 2 = .ok v) :
    stopNew resp b =
      ([getDescNew (jobNameOf b), stopDesc (jobNameOf b) (JsVal.num n),
        destroyDesc (jobNameOf b)], .ok v) := by
  have h := hasLastBuild_of_number data n hn hpos
  simp [stopNew, hget, h, hstop, hdestroy, hn]

/-- Remote responses for a fully successful stop: `job.get` answers with
`{ lastBuild: { number: 7 } }`, everything else succeeds with `null`. -/
def respStopOk : Nat → Except JsVal JsVal := fun k =>
  if k = 0 then .ok (.obj [("lastBuild", .obj [("number", .num 7)])])
  else .ok .null

theorem stop_success_three_calls_witness :
    stopNew respStopOk (JsVal.num 5) =
      ([getDescNew "SD-5", stopDesc "SD-5" (JsVal.num 7), destroyDesc "SD-5"],
        .ok JsVal.null) := by
  have h := stop_success_three_calls respStopOk (JsVal.num 5)
    (JsVal.obj [("lastBuild", JsVal.obj [("number", JsVal.num 7)])]) 7
    JsVal.null JsVal.null rfl (by decide) (by decide) rfl rfl
  simpa [jobNameOf, jsString] using h

/-- Claim C3: when `job.get` succeeds but the returned state has no
last-build record (the state itself falsy, or its `lastBuild` member
absent or `null`, hence falsy), both versions of `stopBuild` issue only
the `job.get` call, never `build.stop` or `job.destroy`, and fail with
the error whose `message` is exactly
"No build has been started yet, try later". -/
theorem stop_no_lastBuild_error (resp : Nat → Except JsVal JsVal)
    (b data : JsVal)
    (hget : resp 0 = .ok data)
    (hlb : truthy data = false ∨ truthy (getField data "lastBuild") = false) :
    stopNew resp b = ([getDescNew (jobNameOf b)],
        .error (mkError "No build has been started yet, try later"))
    ∧ stopOld resp b = ([getDescOld (jobNameOf b)],
        .error (mkError "No build has been started yet, try later"))
    ∧ getField (mkError "No build has been started yet, try later") "message"
        = JsVal.str "No build has been started yet, try later" := by
  have h : hasLastBuild data = false := by
    rcases hlb with h | h <;> simp [hasLastBuild, h]
  refine ⟨?_, ?_, by simp [mkError, getField, lookupField]⟩ <;>
    simp [stopNew, stopOld, hget, h]

theorem stop_no_lastBuild_error_witness :
    stopNew (fun _ => .ok (JsVal.obj [("lastBuild", JsVal.null)])) (JsVal.num 2)
      = ([getDescNew "SD-2"],
          .error (mkError "No build has been started yet, try later")) := by
  have h := stop_no_lastBuild_error
    (fun _ => .ok (JsVal.obj [("lastBuild", JsVal.null)])) (JsVal.num 2)
    (JsVal.obj [("lastBuild", JsVal.null)]) rfl (Or.inr (by decide))
  simpa [jobNameOf, jsString] using h.1

/-- Claim C10: when `job.get` answers with a state whose
`lastBuild.number` is falsy (for example `0`), both versions of
`stopBuild` behave exactly as for an absent last-build record: they issue
only the `job.get` call and fail with the
"No build has been started yet, try later" domain error. -/
theorem stop_falsy_number_error (resp : Nat → Except JsVal JsVal)
    (b data : JsVal)
    (hget : resp 0 = .ok data)
    (hnum : truthy (getField (getField data "lastBuild") "number") = false) :
    stopNew resp b = ([getDescNew (jobNameOf b)],
        .error (mkError "No build has been started yet, try later"))
    ∧ stopOld resp b = ([getDescOld (jobNameOf b)],
        .error (mkError "No build has been started yet, try later")) := by
  have h : hasLastBuild data = false := by
    simp [hasLastBuild, hnum]
  constructor <;> simp [stopNew, stopOld, hget, h]

theorem stop_falsy_number_error_witness :
    stopNew (fun _ => .ok (JsVal.obj [("lastBuild", JsVal.obj [("number", JsVal.num 0)])]))
        (JsVal.num 3)
      = ([getDescNew "SD-3"],
          .error (mkError "No build has been started yet, try later")) := by
  have h := stop_falsy_number_error
    (fun _ => .ok (JsVal.obj [("lastBuild", JsVal.obj [("number", JsVal.num 0)])]))
    (JsVal.num 3)
    (JsVal.obj [("lastBuild", JsVal.obj [("number", JsVal.num 0)])])
    rfl (by decide)
  simpa [jobNameOf, jsString] using h.1

/-- Claim C8: in both versions of `stopBuild`, a failure of `job.get`
rejects the operation with exactly that error and issues neither
`build.stop` nor `job.destroy`; a failure of `build.stop` after a
successful `job.get` rejects with exactly that error and never issues
`job.destroy`. -/
theorem stop_error_propagation (resp : Nat → Except JsVal JsVal) (b : JsVal) :
    (∀ e, resp 0 = .error e →
      stopNew resp b = ([getDescNew (jobNameOf b)], .error e)
      ∧ stopOld resp b = ([getDescOld (jobNameOf b)], .error e))
    ∧ (∀ data e, resp 0 = .ok data → hasLastBuild data = true →
        resp 1 = .error e →
      stopNew resp b = ([getDescNew (jobNameOf b),
          stopDesc (jobNameOf b) (getField (getField data "lastBuild") "number")],
        .error e)
      ∧ stopOld resp b = ([getDescOld (jobNameOf b),
          stopDesc (jobNameOf b) (getField (getField data "lastBuild") "number")],
        .error e)) := by
  constructor
  · intro e hget
    constructor <;> simp [stopNew, stopOld, hget]
  · intro data e hget hlb hstop
    constructor <;> simp [stopNew, stopOld, hget, hlb, hstop]

theorem stop_error_propagation_witness :
    stopNew (fun _ => .error (JsVal.str "socket hang up")) (JsVal.num 4)
      = ([getDescNew "SD-4"], .error (JsVal.str "socket hang up")) := by
  have h := (stop_error_propagation
      (fun _ => .error (JsVal.str "socket hang up")) (JsVal.num 4)).1
    (JsVal.str "socket hang up") rfl
  simpa [jobNameOf, jsString] using h.1

/-- Claim C7: when reading the bundled job-template file fails, both
versions of `startBuild` reject with exactly the read error and issue no
remote call at all (no `job.exists`, `job.create`, `job.config` or
`job.build`). -/
theorem start_read_error (fsN fsO : String → Except JsVal String)
    (resp : Nat → Except JsVal JsVal) (eco : Ecosystem) (config : StartConfig)
    (e eOld : JsVal)
    (hN : fsN templatePathNew = .error e)
    (hO : fsO templatePathOld = .error eOld) :
    startNew fsN resp eco config = ([], .error e)
    ∧ startOld fsO resp eco config = ([], .error eOld) := by
  constructor <;> simp [startNew, startOld, hN, hO]

theorem start_read_error_witness :
    startNew (fun _ => .error (mkError "ENOENT")) (fun _ => .ok JsVal.null)
        ⟨JsVal.str "api", JsVal.str "store"⟩
        ⟨JsVal.num 1, JsVal.str "node:4", JsVal.str "tok"⟩
      = ([], .error (mkError "ENOENT")) := by
  exact (start_read_error (fun _ => .error (mkError "ENOENT"))
    (fun _ => .error (mkError "ENOENT")) (fun _ => .ok JsVal.null)
    ⟨JsVal.str "api", JsVal.str "store"⟩
    ⟨JsVal.num 1, JsVal.str "node:4", JsVal.str "tok"⟩
    (mkError "ENOENT") (mkError "ENOENT") rfl rfl).1

/-- Claim C2: when the template read succeeds, both versions of
`startBuild` issue exactly one `job.exists` check first; then, once the
check has answered, exactly one of `job.create` (on a falsy answer) or
`job.config` (on a truthy answer) — never both in one invocation; then,
if that call succeeded, exactly one `job.build` call, in that order.  The
issued call list is characterised exactly in every case. -/
theorem start_call_order (fsN fsO : String → Except JsVal String)
    (resp : Nat → Except JsVal JsVal) (eco : Ecosystem) (config : StartConfig)
    (xmlN xmlO : String)
    (hN : fsN templatePathNew = .ok xmlN)
    (hO : fsO templatePathOld = .ok xmlO) :
    (∀ e, resp 0 = .error e →
      (startNew fsN resp eco config).1 = [existsDesc (jobNameOf config.buildId)]
      ∧ (startOld fsO resp eco config).1 = [existsDesc (jobNameOf config.buildId)])
    ∧ (∀ ex e, resp 0 = .ok ex → resp 1 = .error e →
      (startNew fsN resp eco config).1
        = [existsDesc (jobNameOf config.buildId),
           if truthy ex then configDesc (jobNameOf config.buildId) xmlN
           else createDesc (jobNameOf config.buildId) xmlN]
      ∧ (startOld fsO resp eco config).1
        = [existsDesc (jobNameOf config.buildId),
           if truthy ex then configDesc (jobNameOf config.buildId) xmlO
           else createDesc (jobNameOf config.buildId) xmlO])
    ∧ (∀ ex w, resp 0 = .ok ex → resp 1 = .ok w →
      (startNew fsN resp eco config).1
        = [existsDesc (jobNameOf config.buildId),
           if truthy ex then configDesc (jobNameOf config.buildId) xmlN
           else createDesc (jobNameOf config.buildId) xmlN,
           buildDesc (jobNameOf config.buildId) (buildParamsNew eco config)]
      ∧ (startOld fsO resp eco config).1
        = [existsDesc (jobNameOf config.buildId),
           if truthy ex then configDesc (jobNameOf config.buildId) xmlO
           else createDesc (jobNameOf config.buildId) xmlO,
           buildDesc (jobNameOf config.buildId) (buildParamsOld eco config)]) := by
  refine ⟨?_, ?_, ?_⟩
  · intro e h0
    constructor <;>
      simp [startNew, startOld, jenkinsJobCreateOrUpdate, hN, hO, h0]
  · intro ex e h0 h1
    by_cases ht : truthy ex <;>
      constructor <;>
        simp [startNew, startOld, jenkinsJobCreateOrUpdate, hN, hO, h0, h1, ht]
  · intro ex w h0 h1
    rcases h2 : resp 2 with e2 | v2 <;>
      by_cases ht : truthy ex <;>
        constructor <;>
          simp [startNew, startOld, jenkinsJobCreateOrUpdate, hN, hO, h0, h1, h2, ht]

theorem start_call_order_witness :
    (startNew (fun _ => .ok "<project/>") (fun _ => .ok JsVal.null)
        ⟨JsVal.str "api", JsVal.str "store"⟩
        ⟨JsVal.num 8, JsVal.str "node:4", JsVal.str "tok"⟩).1
      = [existsDesc "SD-8", createDesc "SD-8" "<project/>",
         buildDesc "SD-8" (buildParamsNew ⟨JsVal.str "api", JsVal.str "store"⟩
           ⟨JsVal.num 8, JsVal.str "node:4", JsVal.str "tok"⟩)] := by
  have h := ((start_call_order (fun _ => .ok "<project/>") (fun _ => .ok "<project/>")
      (fun _ => .ok JsVal.null)
      ⟨JsVal.str "api", JsVal.str "store"⟩
      ⟨JsVal.num 8, JsVal.str "node:4", JsVal.str "tok"⟩
      "<project/>" "<project/>" rfl rfl).2.2 JsVal.null JsVal.null rfl rfl).1
  simpa [jobNameOf, jsString, truthy] using h

/-- Claim C9: when the create-or-update step succeeded but the
`job.build` trigger fails, both versions of `startBuild` reject with
exactly the build-trigger error and issue no further remote call — in
particular no compensating `job.destroy` — leaving the job
created/updated on the remote server. -/
theorem start_build_error (fsN fsO : String → Except JsVal String)
    (resp : Nat → Except JsVal JsVal) (eco : Ecosystem) (config : StartConfig)
    (xmlN xmlO : String) (ex w e : JsVal)
    (hN : fsN templatePathNew = .ok xmlN)
    (hO : fsO templatePathOld = .ok xmlO)
    (h0 : resp 0 = .ok ex) (h1 : resp 1 = .ok w)
    (h2 : resp 2 = .error e) :
    startNew fsN resp eco config
      = ([existsDesc (jobNameOf config.buildId),
          if truthy ex then configDesc (jobNameOf config.buildId) xmlN
          else createDesc (jobNameOf config.buildId) xmlN,
          buildDesc (jobNameOf config.buildId) (buildParamsNew eco config)],
        .error e)
    ∧ startOld fsO resp eco config
      = ([existsDesc (jobNameOf config.buildId),
          if truthy ex then configDesc (jobNameOf config.buildId) xmlO
          else createDesc (jobNameOf config.buildId) xmlO,
          buildDesc (jobNameOf config.buildId) (buildParamsOld eco config)],
        .error e) := by
  by_cases ht : truthy ex <;>
    constructor <;>
      simp [startNew, startOld, jenkinsJobCreateOrUpdate, hN, hO, h0, h1, h2, ht]

theorem start_build_error_witness :
    startNew (fun _ => .ok "<project/>")
        (fun k => if k = 2 then .error (mkError "job.build error") else .ok JsVal.null)
        ⟨JsVal.str "api", JsVal.str "store"⟩
        ⟨JsVal.num 9, JsVal.str "node:4", JsVal.str "tok"⟩
      = ([existsDesc "SD-9", createDesc "SD-9" "<project/>",
          buildDesc "SD-9" (buildParamsNew ⟨JsVal.str "api", JsVal.str "store"⟩
            ⟨JsVal.num 9, JsVal.str "node:4", JsVal.str "tok"⟩)],
        .error (mkError "job.build error")) := by
  have h := (start_build_error (fun _ => .ok "<project/>") (fun _ => .ok "<project/>")
      (fun k => if k = 2 then .error (mkError "job.build error") else .ok JsVal.null)
      ⟨JsVal.str "api", JsVal.str "store"⟩
      ⟨JsVal.num 9, JsVal.str "node:4", JsVal.str "tok"⟩
      "<project/>" "<project/>" JsVal.null JsVal.null (mkError "job.build error")
      rfl rfl rfl rfl rfl).1
  simpa [jobNameOf, jsString, truthy] using h

/-- The create-or-update step always issues `job.exists` first. -/
theorem createOrUpdate_head (resp : Nat → Except JsVal JsVal) (jn xml : String) :
    ∃ rest, (jenkinsJobCreateOrUpdate resp jn xml).1 = existsDesc jn :: rest := by
  rcases h0 : resp 0 with e | ex
  · exact ⟨[], by simp [jenkinsJobCreateOrUpdate, h0]⟩
  · rcases h1 : resp 1 with e | w <;> by_cases ht : truthy ex
    · exact ⟨[configDesc jn xml], by simp [jenkinsJobCreateOrUpdate, h0, h1, ht]⟩
    · exact ⟨[createDesc jn xml], by simp [jenkinsJobCreateOrUpdate, h0, h1, ht]⟩
    · exact ⟨[configDesc jn xml], by simp [jenkinsJobCreateOrUpdate, h0, h1, ht]⟩
    · exact ⟨[createDesc jn xml], by simp [jenkinsJobCreateOrUpdate, h0, h1, ht]⟩

/-- Claim C5: for every build id `b` the computed job name is the fixed
prefix "SD-" concatenated with the stringified `b`; the computation is a
pure function of `b` (it is a Lean function, so it has no hidden state),
and every operation of either version addresses its first remote call to
exactly this name. -/
theorem jobName_pure (b : JsVal) :
    jobNameOf b = "SD-" ++ jsString b
    ∧ (∀ resp, ((stopNew resp b).1).head? = some (getDescNew (jobNameOf b))
        ∧ ((stopOld resp b).1).head? = some (getDescOld (jobNameOf b)))
    ∧ (∀ (fsRead : String → Except JsVal String)
        (resp : Nat → Except JsVal JsVal) (eco : Ecosystem)
        (container token : JsVal) (xml : String),
        fsRead templatePathNew = .ok xml →
        ((startNew fsRead resp eco ⟨b, container, token⟩).1).head?
          = some (existsDesc (jobNameOf b))) := by
  refine ⟨rfl, ?_, ?_⟩
  · intro resp
    constructor <;>
    · rcases h0 : resp 0 with e | data
      · simp [stopNew, stopOld, h0]
      · by_cases hl : hasLastBuild data
        · rcases h1 : resp 1 with e1 | w <;> rcases h2 : resp 2 with e2 | v <;>
            simp [stopNew, stopOld, h0, hl, h1, h2]
        · simp [stopNew, stopOld, h0, hl]
  · intro fsRead resp eco container token xml hread
    obtain ⟨rest, hrest⟩ := createOrUpdate_head resp (jobNameOf b) xml
    rcases hcu : jenkinsJobCreateOrUpdate resp (jobNameOf b) xml with ⟨t, r⟩
    have ht : t = existsDesc (jobNameOf b) :: rest := by
      rw [hcu] at hrest
      exact hrest
    rcases r with e | v
    · simp [startNew, hread, hcu, ht]
    · rcases h2 : resp 2 with e2 | v2 <;> simp [startNew, hread, hcu, ht, h2]

theorem jobName_pure_witness :
    jobNameOf (JsVal.num 11) = "SD-" ++ jsString (JsVal.num 11)
    ∧ ((startNew (fun _ => .ok "<project/>") (fun _ => .ok JsVal.null)
        ⟨JsVal.str "api", JsVal.str "store"⟩
        ⟨JsVal.num 11, JsVal.str "node:4", JsVal.str "tok"⟩).1).head?
        = some (existsDesc (jobNameOf (JsVal.num 11))) :=
  ⟨(jobName_pure (JsVal.num 11)).1,
   (jobName_pure (JsVal.num 11)).2.2 (fun _ => .ok "<project/>")
     (fun _ => .ok JsVal.null) ⟨JsVal.str "api", JsVal.str "store"⟩
     (JsVal.str "node:4") (JsVal.str "tok") "<project/>" rfl⟩

/-- The ecosystem of the concrete spec scenario: `{api:"api", store:"store"}`. -/
def ecoScenario : Ecosystem := ⟨.str "api", .str "store"⟩

/-- The start configuration of the concrete spec scenario:
`buildId=1993, container="node:4", token="abcdefg"`. -/
def configScenario : StartConfig := ⟨.num 1993, .str "node:4", .str "abcdefg"⟩

/-- Claim C6: on the concrete scenario `buildId=1993, container="node:4",
token="abcdefg"` with ecosystem `api="api", store="store"`, the job name
is "SD-1993" and the build-trigger call receives exactly the mapping
`SD_BUILDID="1993"` (the stringified build id), `SD_TOKEN="abcdefg"`,
`SD_API="api"`, `SD_STORE="store"`, with `SD_CONTAINER="node:4"` added in
the new version (the one supporting the container key) and absent in the
old one; the last call issued by a fully successful start is `job.build`
with these parameters. -/
theorem scenario_1993 :
    jobNameOf (JsVal.num 1993) = "SD-1993"
    ∧ buildParamsNew ecoScenario configScenario
      = .obj [("SD_BUILDID", .str "1993"), ("SD_TOKEN", .str "abcdefg"),
              ("SD_CONTAINER", .str "node:4"), ("SD_API", .str "api"),
              ("SD_STORE", .str "store")]
    ∧ buildParamsOld ecoScenario configScenario
      = .obj [("SD_BUILDID", .str "1993"), ("SD_TOKEN", .str "abcdefg"),
              ("SD_API", .str "api"), ("SD_STORE", .str "store")]
    ∧ ((startNew (fun _ => .ok "<project/>") (fun _ => .ok JsVal.null)
          ecoScenario configScenario).1).getLast?
      = some (buildDesc "SD-1993" (buildParamsNew ecoScenario configScenario))
    ∧ ((startOld (fun _ => .ok "<project/>") (fun _ => .ok JsVal.null)
          ecoScenario configScenario).1).getLast?
      = some (buildDesc "SD-1993" (buildParamsOld ecoScenario configScenario)) := by
  decide

/-- Removal of one key from an object field list (helper written from the
spec side, for comparing the two adapter versions). -/
def removeField : List (String × JsVal) → String → List (String × JsVal)
  | [], _ => []
  | (k', v) :: rest, k =>
    if k' = k then removeField rest k else (k', v) :: removeField rest k

/-- Removal of one key from an object (spec-side comparison helper). -/
def stripField (k : String) : JsVal → JsVal
  | .obj fields => .obj (removeField fields k)
  | v => v

/-- Spec-side transformation that deletes the `SD_CONTAINER` entry from
the parameters of a `job.build` descriptor and leaves every other
descriptor unchanged; the spec predicts that it maps the start trace of
the new version to that of the old version. -/
def stripContainerDesc (d : Descriptor) : Descriptor :=
  if d.action = "build" then
    ⟨d.module, d.action, d.params.map (fun p =>
      match p with
      | .obj fields => .obj (fields.map (fun kv =>
          if kv.1 = "parameters" then (kv.1, stripField "SD_CONTAINER" kv.2)
          else kv))
      | v => v)⟩
  else d

theorem stripContainerDesc_existsDesc (jn : String) :
    stripContainerDesc (existsDesc jn) = existsDesc jn := by
  simp [stripContainerDesc, existsDesc]

theorem stripContainerDesc_configDesc (jn xml : String) :
    stripContainerDesc (configDesc jn xml) = configDesc jn xml := by
  simp [stripContainerDesc, configDesc]

theorem stripContainerDesc_createDesc (jn xml : String) :
    stripContainerDesc (createDesc jn xml) = createDesc jn xml := by
  simp [stripContainerDesc, createDesc]

theorem stripContainerDesc_buildDesc (eco : Ecosystem) (config : StartConfig)
    (jn : String) :
    stripContainerDesc (buildDesc jn (buildParamsNew eco config))
      = buildDesc jn (buildParamsOld eco config) := by
  simp [stripContainerDesc, buildDesc, buildParamsNew, buildParamsOld,
    stripField, removeField]

/-- Remote responses where every call fails with the same opaque error. -/
def respAllFail : Nat → Except JsVal JsVal :=
  fun _ => .error (.str "remote failure")

/-- Counterexample to claim C4 as stated: on `buildId = 1`, with the very
first remote call (`job.get`) failing — an input that involves none of
the differences the spec names (no destroy is reached, no build
parameters are formed, no template is read) — the two versions
nevertheless issue different sequences of remote operation descriptors:
the old version passes the bare string "SD-1" to `job.get` where the new
version passes the object `{ name: "SD-1" }`. -/
theorem versions_c4_counterexample :
    (stopOld respAllFail (JsVal.num 1)).1
      ≠ (stopNew respAllFail (JsVal.num 1)).1 := by
  decide

/-- Claim C4 (amended): the two versions differ in the spec-named ways —
the old `stopBuild` omits the `job.destroy` call the new one issues after
a successful `build.stop`, the old `startBuild` omits the `SD_CONTAINER`
build parameter, and the template file is renamed — and additionally in
two ways the spec does not name: the old `stopBuild` passes the bare
job-name string to `job.get` where the new one passes `{ name: jobName }`,
and the old `stopBuild` resolves with the literal `10` where the new one
resolves with the destroy outcome.  Up to exactly these differences the
two versions coincide: the start flows issue the same descriptor
sequences modulo `SD_CONTAINER` and return identical outcomes, and the
stop flows issue the same `get`/`stop` prefix (modulo the `get` parameter
shape) with identical branching and error propagation. -/
theorem versions_c4_amended :
    (templatePathOld = "./config/test-job.xml"
      ∧ templatePathNew = "./config/job.xml"
      ∧ templatePathOld ≠ templatePathNew)
    ∧ (∀ (fsN fsO : String → Except JsVal String)
        (resp : Nat → Except JsVal JsVal) (eco : Ecosystem)
        (config : StartConfig) (r : Except JsVal String),
        fsN templatePathNew = r → fsO templatePathOld = r →
        (startOld fsO resp eco config).1
          = ((startNew fsN resp eco config).1).map stripContainerDesc
        ∧ (startOld fsO resp eco config).2 = (startNew fsN resp eco config).2)
    ∧ (∀ (resp : Nat → Except JsVal JsVal) (b : JsVal),
        (∀ e, resp 0 = .error e →
          stopOld resp b = ([getDescOld (jobNameOf b)], .error e)
          ∧ stopNew resp b = ([getDescNew (jobNameOf b)], .error e))
        ∧ (∀ data, resp 0 = .ok data → hasLastBuild data = false →
          stopOld resp b = ([getDescOld (jobNameOf b)],
              .error (mkError "No build has been started yet, try later"))
          ∧ stopNew resp b = ([getDescNew (jobNameOf b)],
              .error (mkError "No build has been started yet, try later")))
        ∧ (∀ data e, resp 0 = .ok data → hasLastBuild data = true →
            resp 1 = .error e →
          stopOld resp b = ([getDescOld (jobNameOf b),
              stopDesc (jobNameOf b)
                (getField (getField data "lastBuild") "number")], .error e)
          ∧ stopNew resp b = ([getDescNew (jobNameOf b),
              stopDesc (jobNameOf b)
                (getField (getField data "lastBuild") "number")], .error e))
        ∧ (∀ data w, resp 0 = .ok data → hasLastBuild data = true →
            resp 1 = .ok w →
          stopOld resp b = ([getDescOld (jobNameOf b),
              stopDesc (jobNameOf b)
                (getField (getField data "lastBuild") "number")],
            .ok (JsVal.num 10))
          ∧ (∀ e, resp 2 = .error e →
              stopNew resp b = ([getDescNew (jobNameOf b),
                  stopDesc (jobNameOf b)
                    (getField (getField data "lastBuild") "number"),
                  destroyDesc (jobNameOf b)], .error e))
          ∧ (∀ v, resp 2 = .ok v →
              stopNew resp b = ([getDescNew (jobNameOf b),
                  stopDesc (jobNameOf b)
                    (getField (getField data "lastBuild") "number"),
                  destroyDesc (jobNameOf b)], .ok v)))) := by
  refine ⟨⟨rfl, rfl, by decide⟩, ?_, ?_⟩
  · intro fsN fsO resp eco config r hN hO
    rcases r with e | xml
    · constructor <;> simp [startNew, startOld, hN, hO]
    · rcases h0 : resp 0 with e0 | ex
      · constructor <;>
          simp [startNew, startOld, jenkinsJobCreateOrUpdate, hN, hO, h0,
            stripContainerDesc_existsDesc]
      · by_cases ht : truthy ex
        · rcases h1 : resp 1 with e1 | w
          · constructor <;>
              simp [startNew, startOld, jenkinsJobCreateOrUpdate, hN, hO, h0,
                h1, ht, stripContainerDesc_existsDesc, stripContainerDesc_configDesc]
          · rcases h2 : resp 2 with e2 | v2 <;> constructor <;>
              simp [startNew, startOld, jenkinsJobCreateOrUpdate, hN, hO, h0,
                h1, h2, ht, stripContainerDesc_existsDesc,
                stripContainerDesc_configDesc, stripContainerDesc_buildDesc]
        · rcases h1 : resp 1 with e1 | w
          · constructor <;>
              simp [startNew, startOld, jenkinsJobCreateOrUpdate, hN, hO, h0,
                h1, ht, stripContainerDesc_existsDesc, stripContainerDesc_createDesc]
          · rcases h2 : resp 2 with e2 | v2 <;> constructor <;>
              simp [startNew, startOld, jenkinsJobCreateOrUpdate, hN, hO, h0,
                h1, h2, ht, stripContainerDesc_existsDesc,
                stripContainerDesc_createDesc, stripContainerDesc_buildDesc]
  · intro resp b
    refine ⟨?_, ?_, ?_, ?_⟩
    · intro e h0
      constructor <;> simp [stopNew, stopOld, h0]
    · intro data h0 hlb
      constructor <;> simp [stopNew, stopOld, h0, hlb]
    · intro data e h0 hlb h1
      constructor <;> simp [stopNew, stopOld, h0, hlb, h1]
    · intro data w h0 hlb h1
      refine ⟨by simp [stopOld, h0, hlb, h1], ?_, ?_⟩
      · intro e h2
        simp [stopNew, h0, hlb, h1, h2]
      · intro v h2
        simp [stopNew, h0, hlb, h1, h2]

theorem versions_c4_amended_witness :
    (startOld (fun _ => .ok "<project/>") (fun _ => .ok JsVal.null)
        ⟨JsVal.str "api", JsVal.str "store"⟩
        ⟨JsVal.num 6, JsVal.str "node:4", JsVal.str "tok"⟩).1
      = ((startNew (fun _ => .ok "<project/>") (fun _ => .ok JsVal.null)
          ⟨JsVal.str "api", JsVal.str "store"⟩
          ⟨JsVal.num 6, JsVal.str "node:4", JsVal.str "tok"⟩).1).map
            stripContainerDesc :=
  (versions_c4_amended.2.1 (fun _ => .ok "<project/>")
    (fun _ => .ok "<project/>") (fun _ => .ok JsVal.null)
    ⟨JsVal.str "api", JsVal.str "store"⟩
    ⟨JsVal.num 6, JsVal.str "node:4", JsVal.str "tok"⟩
    (.ok "<project/>") rfl rfl).1
